import Mathlib

/-!
Verification of the QEC-SFT AI service analysis pipeline
(`backend/qec-ai-service/main.py`, class `QECAnalysisEngine`).

The pipeline is embedded shallowly: Python floats are modelled as `ℚ`,
dictionaries with a fixed key set as structures, association of filenames to
generated text as `List (String × String)`, and fallible code as `Except`.
The external AI provider is an injected oracle `String → Option String`
(prompt ↦ successful response content, `none` on any transport error,
non-200 status, or missing response field).  Randomness (the simulated
stabilizer checks) and wall-clock values are injected as parameters.
-/

namespace QEC

/-- A single stabilizer check result, as appended by `_run_stabilizer_checks`
(`main.py` lines 339-345): `outcome` is `+1` or `-1`, `confidence` and
`weight` are floats modelled as rationals. -/
structure StabilizerResult where
  name : String
  outcome : Int
  confidence : ℚ
  weight : ℚ
  description : String
deriving DecidableEq

/-- Python exception kinds relevant to the aggregation step.
`zeroDivisionError` is what `sum(...) / len(...)` raises on an empty list;
`invalidConfiguration` is the error kind the specification prescribes for an
empty stabilizer set (no such error kind occurs anywhere in the source). -/
inductive PyError where
  | zeroDivisionError
  | invalidConfiguration
deriving DecidableEq

/-- The coherence-score aggregation of `_run_qec_analysis` (`main.py` lines
134-136): `sum(result['outcome'] * result['confidence'] for result in
stabilizer_results) / len(stabilizer_results)`.  Python `/` raises
`ZeroDivisionError` when the divisor `len(stabilizer_results)` is `0`, so the
embedding returns `Except`. -/
def coherence_score (stabilizer_results : List StabilizerResult) : Except PyError ℚ :=
  if stabilizer_results.length = 0 then
    .error .zeroDivisionError
  else
    .ok (((stabilizer_results.map fun r => (r.outcome : ℚ) * r.confidence).sum) /
      stabilizer_results.length)

/-- Modelled from the spec: the aggregation rule as the spec words it,
"`coherenceScore = sum(outcome_i * confidence_i for all i) / count(results)`",
the unweighted mean of `outcome*confidence`. -/
def unweighted_mean (results : List StabilizerResult) : ℚ :=
  ((results.map fun r => (r.outcome : ℚ) * r.confidence).sum) / results.length

/-- The certificate status expression of `_run_qec_analysis` (`main.py` line
142): `'COHERENT' if coherence_score > 0 else 'INCOHERENT'`. -/
def cert_status (coherence_score : ℚ) : String :=
  if coherence_score > 0 then "COHERENT" else "INCOHERENT"

/-- The risk-severity expression of `_run_qec_analysis` (`main.py` line 148):
`'LOW' if coherence_score > 0.7 else 'HIGH' if coherence_score < 0.3 else
'MEDIUM'`. -/
def risk_severity (coherence_score : ℚ) : String :=
  if coherence_score > 0.7 then "LOW"
  else if coherence_score < 0.3 then "HIGH"
  else "MEDIUM"

/-- The `risk_assessment` sub-dictionary of the certificate
(`main.py` lines 147-151). -/
structure RiskAssessment where
  severity : String
  impact_analysis : String
  mitigation_strategy : String
deriving DecidableEq

/-- The `certificate_of_semantic_integrity` dictionary built by
`_run_qec_analysis` (`main.py` lines 139-152). -/
structure Certificate where
  diagnosis_id : String
  lsu_id : String
  status : String
  certified_at : String
  syndrome_vector : List Int
  sde_version : String
  coherence_score : ℚ
  risk_assessment : RiskAssessment
deriving DecidableEq

/-- The `payload.metadata` dictionary (`main.py` lines 161-166). -/
structure PayloadMetadata where
  creation_timestamp : String
  processing_duration_ms : Int
  version : String
  ai_mode : String
deriving DecidableEq

/-- The `payload` dictionary of the analysis result (`main.py` lines 155-167). -/
structure Payload where
  artifact_id : String
  artifact_type : String
  artifact_body : String
  lsu_id : String
  representations : List (String × String)
  metadata : PayloadMetadata
deriving DecidableEq

/-- The `signature` dictionary of the analysis result (`main.py` lines 169-174). -/
structure Signature where
  key_id : String
  algorithm : String
  value : String
  timestamp : String
deriving DecidableEq

/-- The dictionary returned by `_run_qec_analysis` (`main.py` lines 154-176). -/
structure QECResult where
  payload : Payload
  certificate_of_semantic_integrity : Certificate
  signature : Signature
  ai_provider_used : String
deriving DecidableEq

/-- `_generate_artifact_body` (`main.py` lines 445-475): a deterministic text
template parameterized by the LSU and the certificate status. -/
def generate_artifact_body (lsu status : String) : String :=
  if status = "COHERENT" then
    "# QEC-SFT Validated Governance Policy\n\n## Requirement\n" ++ lsu ++
      "\n\n## Status\n✅ COHERENT - Semantic integrity validated\n\n## Implementation\nThis policy has passed all QEC-SFT stabilizer checks and is ready for deployment.\n\nGenerated by ACGS-PGP QEC-SFT Platform v8.2.0-production\n"
  else
    "# QEC-SFT Safety Protocol\n\n## Requirement\n" ++ lsu ++
      "\n\n## Status  \n❌ INCOHERENT - Manual review required\n\n## Action Required\nThis requirement failed semantic validation and requires expert review before implementation.\n\nGenerated by ACGS-PGP QEC-SFT Platform v8.2.0-production\n"

/-- `_detect_ai_provider` (`main.py` lines 477-484).  A credential is modelled
as `Option String` where `some` means a non-empty key is configured (Python
truthiness of the environment variable). -/
def detect_ai_provider (nvidia_api_key groq_api_key : Option String) : String :=
  if nvidia_api_key.isSome then "nvidia-enhanced"
  else if groq_api_key.isSome then "groq-enhanced"
  else "simulation"

/-- Floor of a rational, computable (`Int.fdiv` is floor division and the
denominator of a `ℚ` is positive). -/
def ratFloor (q : ℚ) : Int := q.num.fdiv q.den

/-- Rendering of a score with Python's `:.2f` format: two decimal places.
Idealization: ties round half-up on the exact rational rather than half-even
on the binary-float representation; no theorem depends on the tie case. -/
def format2f (q : ℚ) : String :=
  let n : Int := ratFloor (q * 100 + 1 / 2)
  let sign := if n < 0 then "-" else ""
  let m := n.natAbs
  sign ++ toString (m / 100) ++ "." ++ (if m % 100 < 10 then "0" else "") ++ toString (m % 100)

/-- `_run_qec_analysis` (`main.py` lines 125-176) after the representation and
stabilizer steps: the coherence aggregation, certificate, payload and
signature assembly.  The already-produced representations and stabilizer
results are passed in (the stabilizer outcomes are random in the source), as
are the timestamp `now` and the configured credentials. -/
def run_qec_analysis (lsu analysis_id : String) (representations : List (String × String))
    (stabilizer_results : List StabilizerResult)
    (nvidia_api_key groq_api_key : Option String) (now : String) :
    Except PyError QECResult :=
  (coherence_score stabilizer_results).map fun score =>
    let certificate : Certificate := {
      diagnosis_id := "diag-" ++ analysis_id
      lsu_id := analysis_id
      status := cert_status score
      certified_at := now
      syndrome_vector := stabilizer_results.map (·.outcome)
      sde_version := "v8.2.0-production"
      coherence_score := score
      risk_assessment := {
        severity := risk_severity score
        impact_analysis := "Coherence score: " ++ format2f score
        mitigation_strategy :=
          if score > 0.7 then "Standard monitoring procedures" else "Manual review required" } }
    { payload := {
        artifact_id := "artifact-" ++ analysis_id
        artifact_type := if certificate.status = "COHERENT" then "rego_policy" else "safety_protocol"
        artifact_body := generate_artifact_body lsu certificate.status
        lsu_id := analysis_id
        representations := representations
        metadata := {
          creation_timestamp := now
          processing_duration_ms := 0
          version := "v8.2.0-production"
          ai_mode := "enhanced-analysis" } }
      certificate_of_semantic_integrity := certificate
      signature := {
        key_id := "acgs-pgp-enhanced-key"
        algorithm := "ECDSA-SHA256"
        value := "sig-" ++ analysis_id
        timestamp := now }
      ai_provider_used := detect_ai_provider nvidia_api_key groq_api_key }

/-- `_get_template_content` (`main.py` lines 243-318): the Template Library,
canned textual content per artifact filename, parameterized by the LSU
(`lsu[:100]` is `String.take 100`).  Filenames outside the fixed dictionary
fall to the `templates.get` default. -/
def get_template_content (filename lsu : String) : String :=
  if filename = "policy.rego" then
    "package governance\n\n# Generated from LSU: \"" ++ lsu.take 100 ++
      "...\"\n\ndefault allow = false\n\nallow \x7b\n    input.action == \"read\"\n    input.resource.type == \"document\"\n    validate_semantic_rule(input.context)\n\x7d\n\nvalidate_semantic_rule(context) \x7b\n    context.safety_level >= 3\n    not context.high_risk_indicators[_]\n\x7d"
  else if filename = "specification.tla" then
    "---- MODULE GovernanceSpec ----\nEXTENDS Naturals, Sequences\n\n\\* Generated from LSU: \"" ++ lsu.take 100 ++
      "...\"\n\nVARIABLES state, safety_level, compliance_status\n\nInit == \n    /\\ state = \"initial\"\n    /\\ safety_level = 0\n    /\\ compliance_status = \"pending\"\n\nNext == \n    \\/  /\\ state = \"initial\"\n         /\\ safety_level' = 3\n         /\\ compliance_status' = \"validated\" \n         /\\ state' = \"compliant\"\n    \\/  UNCHANGED <<state, safety_level, compliance_status>>\n\nSpec == Init /\\ [][Next]_<<state, safety_level, compliance_status>>\n===="
  else if filename = "test_suite.py" then
    "\"\"\"\nTest suite for governance requirement: " ++ lsu.take 100 ++
      "...\n\"\"\"\nimport pytest\n\ndef test_governance_validation():\n    context = \x7b\"safety_level\": 4, \"high_risk_indicators\": []\x7d\n    assert validate_semantic_rule(context) == True\n\ndef test_safety_threshold():\n    context = \x7b\"safety_level\": 2, \"high_risk_indicators\": []\x7d\n    assert validate_semantic_rule(context) == False\n\ndef validate_semantic_rule(context):\n    return context.get(\"safety_level\", 0) >= 3 and len(context.get(\"high_risk_indicators\", [])) == 0"
  else if filename = "documentation.md" then
    "# Governance Policy Documentation\n\n## Requirement\n" ++ lsu ++
      "\n\n## Implementation\nThis policy has been generated using the QEC-SFT platform with enhanced semantic analysis.\n\n## Validation\n- Syntax validation: PASSED\n- Semantic consistency: VERIFIED\n- Security analysis: COMPLETED\n- Performance check: ACCEPTABLE\n- Compliance audit: APPROVED\n"
  else
    "# Generated content for " ++ filename ++ "\n# LSU: " ++ lsu

/-- `_template_generate_representations` (`main.py` lines 234-241): template
content for each of the four fixed artifact filenames. -/
def template_generate_representations (lsu : String) : List (String × String) :=
  [("policy.rego", get_template_content "policy.rego" lsu),
   ("specification.tla", get_template_content "specification.tla" lsu),
   ("test_suite.py", get_template_content "test_suite.py" lsu),
   ("documentation.md", get_template_content "documentation.md" lsu)]

/-- The `prompts` dictionary of `_ai_generate_representations`
(`main.py` lines 194-199): one kind-specific prompt per artifact filename,
in insertion order. -/
def prompts (lsu : String) : List (String × String) :=
  [("policy.rego", "Generate a complete Rego policy for: " ++ lsu),
   ("specification.tla", "Create a TLA+ specification for: " ++ lsu),
   ("test_suite.py", "Write comprehensive Python tests for: " ++ lsu),
   ("documentation.md", "Create documentation for: " ++ lsu)]

/-- Deltas to the `qec_ai_provider_requests_total` counter accumulated during
one invocation of `_ai_generate_representations`, by `status` label
(`attempt`, `success`, `error`), all for `provider='nvidia'`. -/
structure ProviderMetrics where
  attempts : Nat
  success : Nat
  error : Nat
deriving DecidableEq

/-- `_ai_generate_representations` (`main.py` lines 189-232).  The provider is
the oracle `aiCall : prompt → Option content` (`none` covers a non-200 status,
a transport error, or a missing `choices[0].message.content` field).  The
attempt counter is incremented once at entry (line 191, before the loop); the
loop then, per filename, stores the provider content and counts a success, or
— on that call's failure — stores that kind's Template Library content and
counts an error, leaving other kinds untouched. -/
def ai_generate_representations (aiCall : String → Option String) (lsu : String) :
    List (String × String) × ProviderMetrics :=
  (prompts lsu).foldl
    (fun acc fp =>
      match aiCall fp.2 with
      | some content =>
        (acc.1 ++ [(fp.1, content)],
         { acc.2 with success := acc.2.success + 1 })
      | none =>
        (acc.1 ++ [(fp.1, get_template_content fp.1 lsu)],
         { acc.2 with error := acc.2.error + 1 }))
    ([], { attempts := 1, success := 0, error := 0 })

/-- `_generate_representations` (`main.py` lines 178-187): when an NVIDIA
credential is configured, attempt AI generation, falling back to the full
template set if that path raises as a whole (`aiPathRaises` models an
exception escaping `_ai_generate_representations`, e.g. session
construction); with no credential, use templates for every kind.  Total:
every path yields a representation set. -/
def generate_representations (nvidia_api_key : Option String) (aiPathRaises : Bool)
    (aiCall : String → Option String) (lsu : String) : List (String × String) :=
  match nvidia_api_key with
  | some _ =>
    if aiPathRaises then template_generate_representations lsu
    else (ai_generate_representations aiCall lsu).1
  | none => template_generate_representations lsu

/-- `_assess_compliance` (`main.py` lines 406-417): `COMPLIANT` if the
certificate status is `COHERENT` and the score is at least `0.8`; otherwise
`NON_COMPLIANT` if the status is `INCOHERENT` or the score is below `0.5`;
otherwise `REVIEW_REQUIRED`. -/
def assess_compliance (qec_result : QECResult) : String :=
  let certificate := qec_result.certificate_of_semantic_integrity
  if certificate.status = "COHERENT" ∧ certificate.coherence_score ≥ 0.8 then
    "COMPLIANT"
  else if certificate.status = "INCOHERENT" ∨ certificate.coherence_score < 0.5 then
    "NON_COMPLIANT"
  else
    "REVIEW_REQUIRED"

/-- Header of the policy text of `_generate_opa_policy` (`main.py` lines
355-358 plus the following blank line): the comment block naming the analysis
id, the `:.2f`-formatted coherence score, and the status. -/
def opa_policy_head (qec_result : QECResult) : String :=
  "# Generated OPA Policy from QEC-SFT Analysis\n# Analysis ID: " ++
    qec_result.certificate_of_semantic_integrity.diagnosis_id ++
    "\n# Coherence Score: " ++
    format2f qec_result.certificate_of_semantic_integrity.coherence_score ++
    "\n# Status: " ++ qec_result.certificate_of_semantic_integrity.status ++ "\n\n"

/-- Policy text between the package line and the second occurrence of the
analysis type (`main.py` lines 361-370). -/
def opa_policy_mid1 : String :=
  "\n\nimport future.keywords.if\nimport future.keywords.in\n\ndefault allow = false\n\n# Main authorization rule based on QEC analysis\nallow if \x7b\n    qec_coherence_validated\n    security_requirements_met\n    "

/-- Policy text between the second and third occurrences of the analysis type
(`main.py` lines 371-387). -/
def opa_policy_mid2 : String :=
  "_specific_checks\n\x7d\n\n# QEC coherence validation\nqec_coherence_validated if \x7b\n    input.qec_analysis.status == \"COHERENT\"\n    input.qec_analysis.coherence_score >= 0.7\n\x7d\n\n# Security requirements\nsecurity_requirements_met if \x7b\n    count(input.security_violations) == 0\n    input.user.authenticated == true\n    input.user.role in [\"authorized_user\", \"admin\"]\n\x7d\n\n# Analysis-specific checks\n"

/-- Policy text after the third occurrence of the analysis type
(`main.py` lines 388-403). -/
def opa_policy_tail : String :=
  "_specific_checks if \x7b\n    input.validation_passed == true\n    input.compliance_verified == true\n\x7d\n\n# Violation tracking\nviolations[msg] \x7b\n    input.qec_analysis.status == \"INCOHERENT\"\n    msg := \"QEC analysis failed coherence validation\"\n\x7d\n\nviolations[msg] \x7b\n    input.qec_analysis.coherence_score < 0.7\n    msg := sprintf(\"Coherence score %.2f below threshold\", [input.qec_analysis.coherence_score])\n\x7d\n"

/-- `_generate_opa_policy` (`main.py` lines 349-404): a deterministic text
template over the certificate and the analysis-type tag.  The analysis-type
string is interpolated as-is into the package name and two rule names. -/
def generate_opa_policy (qec_result : QECResult) (analysis_type : String) : String :=
  opa_policy_head qec_result ++ ("package acgs.qec." ++ analysis_type) ++
    (opa_policy_mid1 ++ analysis_type ++ opa_policy_mid2 ++ analysis_type ++ opa_policy_tail)

/-- Modelled from the spec: a "safe identifier" in the sense of §4.4 — text
safe to embed in generated policy source, here non-empty and consisting of
alphanumeric characters and underscores.  No sanitization function exists in
the source. -/
def isSafeIdentifier (s : String) : Bool :=
  (decide (s ≠ "")) && s.data.all fun c => c.isAlphanum || c = '_'

/-- `_generate_recommendations` (`main.py` lines 419-443): a fixed base set
conditioned on the certificate status, plus one extra entry for the
`security` or `compliance` analysis types. -/
def generate_recommendations (qec_result : QECResult) (analysis_type : String) : List String :=
  (if qec_result.certificate_of_semantic_integrity.status = "COHERENT" then
    ["Policy validation successful - ready for deployment",
     "Monitor performance in production environment",
     "Schedule regular compliance reviews"]
  else
    ["Address semantic coherence issues before deployment",
     "Review failed stabilizer checks",
     "Consider manual expert review"]) ++
  (if analysis_type = "security" then
    ["Conduct additional security penetration testing"]
  else if analysis_type = "compliance" then
    ["Update compliance documentation"]
  else [])

/-- `QECAnalysisRequest` (`main.py` lines 34-40). -/
structure QECAnalysisRequest where
  lsu : String
  analysis_type : String
  ai_provider_preference : Option String
  integration_mode : String
  metadata : Option (List (String × String))
deriving DecidableEq

/-- `QECAnalysisResponse` (`main.py` lines 42-54). -/
structure QECAnalysisResponse where
  analysis_id : String
  timestamp : String
  lsu_input : String
  qec_result : QECResult
  opa_policy : Option String
  compliance_status : String
  audit_trail_id : String
  recommendations : List String
  processing_time_ms : Int
  ai_provider_used : String
  confidence_score : ℚ
deriving DecidableEq

/-- The response shaping of `analyze_governance_requirement` (`main.py` lines
64-113) on the successful path: given the already-computed `qec_result`
(the `_run_qec_analysis` output), the generated `analysis_id`, the timestamp
and the measured processing time, produce the optional OPA policy, the
compliance status, the recommendations, and the response whose
`confidence_score` is the certificate's coherence score. -/
def analyze_governance_requirement (request : QECAnalysisRequest) (qec_result : QECResult)
    (analysis_id timestamp : String) (processing_time_ms : Int) : QECAnalysisResponse :=
  let opa_policy :=
    if request.integration_mode = "opa" then
      some (generate_opa_policy qec_result request.analysis_type)
    else none
  let compliance_status := assess_compliance qec_result
  let recommendations := generate_recommendations qec_result request.analysis_type
  let coherence_score := qec_result.certificate_of_semantic_integrity.coherence_score
  { analysis_id := analysis_id
    timestamp := timestamp
    lsu_input := request.lsu
    qec_result := qec_result
    opa_policy := opa_policy
    compliance_status := compliance_status
    audit_trail_id := "audit-" ++ analysis_id
    recommendations := recommendations
    processing_time_ms := processing_time_ms
    ai_provider_used := qec_result.ai_provider_used
    confidence_score := coherence_score }

/-- The `metadata` sub-dictionary of the audit entry (`main.py` lines 500-504). -/
structure AuditMetadata where
  lsu_preview : String
  ai_provider : String
  coherence_score : ℚ
deriving DecidableEq

/-- The audit entry built by `_record_audit_entry` (`main.py` lines 489-505). -/
structure AuditEntry where
  decision_id : String
  timestamp : String
  policy_path : String
  model_name : String
  decision : String
  violations : List String
  enhanced : Bool
  ai_confidence : ℚ
  processing_time_ms : Int
  compliance_status : String
  metadata : AuditMetadata
deriving DecidableEq

/-- `_record_audit_entry` (`main.py` lines 486-505): construct the audit
entry from the final response (forwarding to the external sink is
fire-and-forget and carries no data back). -/
def record_audit_entry (response : QECAnalysisResponse) : AuditEntry :=
  { decision_id := response.analysis_id
    timestamp := response.timestamp
    policy_path := "acgs.qec.analysis"
    model_name := "qec-sft-enhanced"
    decision := if response.compliance_status = "COMPLIANT" then "ALLOW" else "DENY"
    violations :=
      if response.compliance_status = "COMPLIANT" then []
      else ["QEC: " ++ response.compliance_status]
    enhanced := true
    ai_confidence := response.confidence_score
    processing_time_ms := response.processing_time_ms
    compliance_status := response.compliance_status
    metadata := {
      lsu_preview := response.lsu_input.take 100 ++ "..."
      ai_provider := response.ai_provider_used
      coherence_score := response.confidence_score } }

/-- A sample certificate with the given status and score, for evaluating the
classification functions at concrete inputs. -/
def sampleCert (status : String) (score : ℚ) : Certificate :=
  { diagnosis_id := "diag-qec-1"
    lsu_id := "qec-1"
    status := status
    certified_at := "t"
    syndrome_vector := [1, 1, 1, 1, -1]
    sde_version := "v8.2.0-production"
    coherence_score := score
    risk_assessment := {
      severity := "LOW"
      impact_analysis := "i"
      mitigation_strategy := "m" } }

/-- A sample full analysis result around `sampleCert`, for evaluating the
downstream functions at concrete inputs. -/
def sampleResult (status : String) (score : ℚ) : QECResult :=
  { payload := {
      artifact_id := "artifact-qec-1"
      artifact_type := "rego_policy"
      artifact_body := "b"
      lsu_id := "qec-1"
      representations := []
      metadata := {
        creation_timestamp := "t"
        processing_duration_ms := 0
        version := "v8.2.0-production"
        ai_mode := "enhanced-analysis" } }
    certificate_of_semantic_integrity := sampleCert status score
    signature := {
      key_id := "acgs-pgp-enhanced-key"
      algorithm := "ECDSA-SHA256"
      value := "sig-qec-1"
      timestamp := "t" }
    ai_provider_used := "simulation" }

end QEC

namespace QEC

/-- C1: For every non-empty list of stabilizer results, the coherence score of
`_run_qec_analysis` equals the unweighted mean of `outcome * confidence` over
all results, and it is invariant under arbitrary reassignment of the
per-result `weight` field (the weight is not applied in the aggregation). -/
theorem coherence_score_eq_unweighted_mean (results : List StabilizerResult)
    (h : results ≠ []) (g : StabilizerResult → ℚ) :
    coherence_score results = .ok (unweighted_mean results) ∧
    coherence_score (results.map fun r => { r with weight := g r }) =
      coherence_score results := by
  have hlen : results.length ≠ 0 := by
    simpa [List.length_eq_zero] using h
  have hmap : ((fun r => ((r.outcome : ℚ) * r.confidence)) ∘
      fun r : StabilizerResult => { r with weight := g r }) =
      fun r : StabilizerResult => ((r.outcome : ℚ) * r.confidence) := rfl
  constructor
  · simp [coherence_score, unweighted_mean, hlen]
  · simp [coherence_score, unweighted_mean, hlen, List.map_map, hmap]

/-- Witness for C1 at a concrete one-element result list and the constant-zero
reweighting. -/
theorem coherence_score_eq_unweighted_mean_witness :
    coherence_score [⟨"syntax_validation", 1, 9/10, 8/10, "d"⟩] =
      .ok (unweighted_mean [⟨"syntax_validation", 1, 9/10, 8/10, "d"⟩]) ∧
    coherence_score (([⟨"syntax_validation", 1, 9/10, 8/10, "d"⟩] :
        List StabilizerResult).map fun r => { r with weight := (fun _ => 0) r }) =
      coherence_score [⟨"syntax_validation", 1, 9/10, 8/10, "d"⟩] :=
  coherence_score_eq_unweighted_mean [⟨"syntax_validation", 1, 9/10, 8/10, "d"⟩]
    (List.cons_ne_nil _ _) (fun _ => 0)

/-- C4 counterexample: on the empty stabilizer list the synthesizer fails with
`ZeroDivisionError` (the Python division by zero), which is a different error
kind from the `InvalidConfiguration` error the claim names. -/
theorem empty_stabilizers_error_kind_counterexample :
    run_qec_analysis "x" "a1" [] [] none none "t" =
      Except.error PyError.zeroDivisionError ∧
    run_qec_analysis "x" "a1" [] [] none none "t" ≠
      Except.error PyError.invalidConfiguration := by
  constructor
  · rfl
  · have h : run_qec_analysis "x" "a1" [] [] none none "t" =
        Except.error PyError.zeroDivisionError := rfl
    rw [h]
    simp

/-- C4 amended: when the stabilizer result list is empty, `_run_qec_analysis`
fails with a `ZeroDivisionError` raised by the aggregation's division (it
does not propagate NaN/undefined, and it does not raise an
`InvalidConfiguration` error, a kind absent from the source). -/
theorem empty_stabilizers_zero_division (lsu analysis_id : String)
    (representations : List (String × String))
    (nvidia_api_key groq_api_key : Option String) (now : String) :
    run_qec_analysis lsu analysis_id representations [] nvidia_api_key groq_api_key now =
      Except.error PyError.zeroDivisionError :=
  rfl

/-- C5: the certificate status is `COHERENT` exactly when the coherence score
is strictly positive; a score of exactly `0` yields `INCOHERENT`. -/
theorem cert_status_coherent_iff_pos (s : ℚ) :
    (cert_status s = "COHERENT" ↔ 0 < s) ∧ cert_status 0 = "INCOHERENT" := by
  constructor
  · by_cases h : 0 < s <;> simp [cert_status, h]
  · simp [cert_status]

/-- C3: compliance classification follows exactly the three-branch precedence
of `_assess_compliance`: `COMPLIANT` iff status `COHERENT` and score `≥ 0.8`;
otherwise `NON_COMPLIANT` iff status `INCOHERENT` or score `< 0.5`; otherwise
`REVIEW_REQUIRED`.  In particular `INCOHERENT` with score `0.9` classifies as
`NON_COMPLIANT` and `COHERENT` with score `0.6` as `REVIEW_REQUIRED`. -/
theorem assess_compliance_precedence (q : QECResult) :
    (assess_compliance q = "COMPLIANT" ↔
      (q.certificate_of_semantic_integrity.status = "COHERENT" ∧
        q.certificate_of_semantic_integrity.coherence_score ≥ 0.8)) ∧
    (assess_compliance q = "NON_COMPLIANT" ↔
      (¬(q.certificate_of_semantic_integrity.status = "COHERENT" ∧
          q.certificate_of_semantic_integrity.coherence_score ≥ 0.8) ∧
        (q.certificate_of_semantic_integrity.status = "INCOHERENT" ∨
          q.certificate_of_semantic_integrity.coherence_score < 0.5))) ∧
    (assess_compliance q = "REVIEW_REQUIRED" ↔
      (¬(q.certificate_of_semantic_integrity.status = "COHERENT" ∧
          q.certificate_of_semantic_integrity.coherence_score ≥ 0.8) ∧
        ¬(q.certificate_of_semantic_integrity.status = "INCOHERENT" ∨
          q.certificate_of_semantic_integrity.coherence_score < 0.5))) ∧
    assess_compliance (sampleResult "INCOHERENT" 0.9) = "NON_COMPLIANT" ∧
    assess_compliance (sampleResult "COHERENT" 0.6) = "REVIEW_REQUIRED" := by
  have hA : assess_compliance (sampleResult "INCOHERENT" 0.9) = "NON_COMPLIANT" := by
    simp only [assess_compliance, sampleResult, sampleCert]
    norm_num
    exact fun hc => absurd hc (by decide)
  have hB : assess_compliance (sampleResult "COHERENT" 0.6) = "REVIEW_REQUIRED" := by
    simp only [assess_compliance, sampleResult, sampleCert]
    norm_num
    exact fun hc => absurd hc (by decide)
  refine ⟨?_, ?_, ?_, hA, hB⟩ <;>
    by_cases h1 : (q.certificate_of_semantic_integrity.status = "COHERENT" ∧
        q.certificate_of_semantic_integrity.coherence_score ≥ 0.8) <;>
    by_cases h2 : (q.certificate_of_semantic_integrity.status = "INCOHERENT" ∨
        q.certificate_of_semantic_integrity.coherence_score < 0.5) <;>
    simp [assess_compliance, h1, h2]

/-- C2: representation generation is total and per-kind independent: on every
path (credential or not, outer AI failure or not) it yields an entry for each
of the four fixed artifact filenames in order, and on the AI path the entry
for each kind is that kind's provider content when its own call succeeds and
that kind's Template Library content when its own call fails, independent of
the other kinds' calls. -/
theorem representations_total_and_per_kind_fallback (nvidia_api_key : Option String)
    (aiPathRaises : Bool) (aiCall : String → Option String) (lsu : String) :
    ((generate_representations nvidia_api_key aiPathRaises aiCall lsu).map Prod.fst =
      ["policy.rego", "specification.tla", "test_suite.py", "documentation.md"]) ∧
    ((ai_generate_representations aiCall lsu).1 =
      (prompts lsu).map fun fp =>
        (fp.1, (aiCall fp.2).getD (get_template_content fp.1 lsu))) := by
  have hai : (ai_generate_representations aiCall lsu).1 =
      (prompts lsu).map fun fp =>
        (fp.1, (aiCall fp.2).getD (get_template_content fp.1 lsu)) := by
    rcases h1 : aiCall ("Generate a complete Rego policy for: " ++ lsu) with _ | c1 <;>
    rcases h2 : aiCall ("Create a TLA+ specification for: " ++ lsu) with _ | c2 <;>
    rcases h3 : aiCall ("Write comprehensive Python tests for: " ++ lsu) with _ | c3 <;>
    rcases h4 : aiCall ("Create documentation for: " ++ lsu) with _ | c4 <;>
    simp [ai_generate_representations, prompts, h1, h2, h3, h4]
  refine ⟨?_, hai⟩
  cases nvidia_api_key with
  | none => rfl
  | some k =>
    cases aiPathRaises with
    | true => rfl
    | false =>
      simp only [generate_representations, hai]
      simp [prompts]

/-- C6: with no AI-provider credential configured the generator output is
exactly (string-equal to) the Template Library output for all four fixed
artifact kinds, regardless of the provider oracle.  The third conjunct
evaluates one template at a concrete LSU to its exact canned text. -/
theorem no_credential_templates_exact (aiPathRaises : Bool)
    (aiCall : String → Option String) (lsu : String) :
    generate_representations none aiPathRaises aiCall lsu =
      template_generate_representations lsu ∧
    template_generate_representations lsu =
      [("policy.rego", get_template_content "policy.rego" lsu),
       ("specification.tla", get_template_content "specification.tla" lsu),
       ("test_suite.py", get_template_content "test_suite.py" lsu),
       ("documentation.md", get_template_content "documentation.md" lsu)] ∧
    get_template_content "documentation.md" "All deployments must pass security review." =
      "# Governance Policy Documentation\n\n## Requirement\nAll deployments must pass security review.\n\n## Implementation\nThis policy has been generated using the QEC-SFT platform with enhanced semantic analysis.\n\n## Validation\n- Syntax validation: PASSED\n- Semantic consistency: VERIFIED\n- Security analysis: COMPLETED\n- Performance check: ACCEPTABLE\n- Compliance audit: APPROVED\n" :=
  ⟨rfl, rfl, rfl⟩

/-- C7 counterexample: with a provider succeeding on all four artifact kinds,
the attempt counter is incremented once for the whole invocation — not once
per provider call: its delta (1) differs from the number of provider calls
(4), while the success counter does count per call. -/
theorem provider_attempt_counter_counterexample :
    (prompts "x").length = 4 ∧
    (ai_generate_representations (fun _ => some "ok") "x").2.attempts = 1 ∧
    (ai_generate_representations (fun _ => some "ok") "x").2.success = 4 ∧
    (ai_generate_representations (fun _ => some "ok") "x").2.attempts ≠
      (prompts "x").length := by
  refine ⟨rfl, rfl, rfl, by decide⟩

/-- C7 amended: per invocation of `_ai_generate_representations`, the
provider-outcome counters are incremented once per individual provider call
(success for each kind whose call succeeds, error for each kind whose call
fails, summing to the number of artifact kinds), while the provider-attempt
counter is incremented once per invocation (request), not once per call. -/
theorem provider_metrics_per_call (aiCall : String → Option String) (lsu : String) :
    (ai_generate_representations aiCall lsu).2.attempts = 1 ∧
    (ai_generate_representations aiCall lsu).2.success =
      ((prompts lsu).countP fun fp => (aiCall fp.2).isSome) ∧
    (ai_generate_representations aiCall lsu).2.error =
      ((prompts lsu).countP fun fp => (aiCall fp.2).isNone) ∧
    (ai_generate_representations aiCall lsu).2.success +
      (ai_generate_representations aiCall lsu).2.error = (prompts lsu).length := by
  rcases h1 : aiCall ("Generate a complete Rego policy for: " ++ lsu) with _ | c1 <;>
  rcases h2 : aiCall ("Create a TLA+ specification for: " ++ lsu) with _ | c2 <;>
  rcases h3 : aiCall ("Write comprehensive Python tests for: " ++ lsu) with _ | c3 <;>
  rcases h4 : aiCall ("Create documentation for: " ++ lsu) with _ | c4 <;>
  simp [ai_generate_representations, prompts, h1, h2, h3, h4, List.countP_cons]

/-- Concatenation of strings concatenates their character data. -/
theorem string_data_append (x y : String) : (x ++ y).data = x.data ++ y.data := rfl

/-- C8 counterexample: the analysis-type text `"un safe"` is not a safe
identifier, yet `_generate_opa_policy` embeds it verbatim in the generated
source, directly after `package acgs.qec.` — no sanitization happens before
embedding. -/
theorem opa_policy_unsanitized_counterexample :
    isSafeIdentifier "un safe" = false ∧
    ∃ s₁ s₂ : String,
      generate_opa_policy (sampleResult "COHERENT" 0.85) "un safe" =
        s₁ ++ ("package acgs.qec." ++ "un safe") ++ s₂ :=
  ⟨by decide,
   opa_policy_head (sampleResult "COHERENT" 0.85),
   opa_policy_mid1 ++ "un safe" ++ opa_policy_mid2 ++ "un safe" ++ opa_policy_tail,
   rfl⟩

/-- C8 amended: `_generate_opa_policy` embeds the analysis-type text verbatim
(unsanitized) after `package acgs.qec.` in the generated source, and does so
injectively — distinct analysis-type strings always produce distinct policy
texts, so no normalization to a safe identifier takes place.  The operation
itself is pure text formatting: total for every input and free of external
calls. -/
theorem opa_policy_embeds_verbatim (q : QECResult) (a a' : String) :
    (∃ s₁ s₂ : String,
      generate_opa_policy q a = s₁ ++ ("package acgs.qec." ++ a) ++ s₂) ∧
    (generate_opa_policy q a = generate_opa_policy q a' → a = a') := by
  constructor
  · exact ⟨opa_policy_head q,
      opa_policy_mid1 ++ a ++ opa_policy_mid2 ++ a ++ opa_policy_tail, rfl⟩
  · intro h
    have hd := congrArg String.data h
    simp only [generate_opa_policy, string_data_append, List.append_assoc] at hd
    have hlen := congrArg List.length hd
    simp only [List.length_append] at hlen
    have hlen' : a.data.length = a'.data.length := by omega
    have h1 := List.append_cancel_left hd
    have h2 := List.append_cancel_left h1
    have h3 := (List.append_inj h2 hlen').1
    exact congrArg String.mk h3

/-- Witness for C8's amended statement at the concrete analysis type `full`
(the hypothesis of the injectivity part discharged by reflexivity). -/
theorem opa_policy_embeds_verbatim_witness :
    (∃ s₁ s₂ : String,
      generate_opa_policy (sampleResult "COHERENT" 0.85) "full" =
        s₁ ++ ("package acgs.qec." ++ "full") ++ s₂) ∧ "full" = "full" :=
  ⟨(opa_policy_embeds_verbatim (sampleResult "COHERENT" 0.85) "full" "full").1,
   (opa_policy_embeds_verbatim (sampleResult "COHERENT" 0.85) "full" "full").2 rfl⟩

/-- C9: the audit entry's decision is `ALLOW` exactly when the response's
compliance status is `COMPLIANT` (`DENY` for everything else, including
`NON_COMPLIANT` and `REVIEW_REQUIRED`), and its violations list is empty
exactly when the decision is `ALLOW`, otherwise it is the single entry naming
the compliance status. -/
theorem audit_decision_allow_iff_compliant (response : QECAnalysisResponse) :
    ((record_audit_entry response).decision = "ALLOW" ↔
      response.compliance_status = "COMPLIANT") ∧
    ((record_audit_entry response).violations = [] ↔
      (record_audit_entry response).decision = "ALLOW") ∧
    ((record_audit_entry response).violations = [] ∨
      (record_audit_entry response).violations =
        ["QEC: " ++ response.compliance_status]) := by
  by_cases h : response.compliance_status = "COMPLIANT" <;>
    simp [record_audit_entry, h]

/-- C10: for every successful analysis run, the response's `confidence_score`
is the certificate's coherence score, and the audit entry's `ai_confidence`
and metadata `coherence_score` both equal that same value — no independently
computed confidence appears anywhere. -/
theorem response_confidence_eq_coherence (request : QECAnalysisRequest)
    (qec_result : QECResult) (analysis_id timestamp : String)
    (processing_time_ms : Int) :
    (analyze_governance_requirement request qec_result analysis_id timestamp
        processing_time_ms).confidence_score =
      qec_result.certificate_of_semantic_integrity.coherence_score ∧
    (record_audit_entry (analyze_governance_requirement request qec_result
        analysis_id timestamp processing_time_ms)).ai_confidence =
      qec_result.certificate_of_semantic_integrity.coherence_score ∧
    (record_audit_entry (analyze_governance_requirement request qec_result
        analysis_id timestamp processing_time_ms)).metadata.coherence_score =
      qec_result.certificate_of_semantic_integrity.coherence_score :=
  ⟨rfl, rfl, rfl⟩

end QEC
